import Mathlib

/-!
# Verification of the pixel-game-music-generator audio core

Shallow embedding of the audio scheduling and synthesis core of the
step-sequencer (src/audio/AudioEngine.ts, src/audio/Scheduler.ts with the
embedded AudioRenderer, and the ChiptuneOscillator class).

Modelling conventions:
* JS numbers (times in seconds, gains, tempi) are modelled as rationals (ℚ);
  the claims under verification are about timing/gain decisions, which the
  source computes with exact constants, not about floating-point rounding.
* MIDI pitches, beat indices and sample counts are naturals.
* A Web Audio node graph created for one note is modelled as the list of
  `Voice` records the call creates, each carrying its source kind, filters,
  scheduled parameter-automation events, and start/stop times.  The oscillator
  frequency of a melodic voice (`440·2^((pitch−69)/12)` Hz in the source) is
  kept as the MIDI index `midiPitch` so every definition stays computable;
  no claim quantifies over the transcendental Hz value itself.
-/

namespace PixelMusic

/-- ADSR envelope parameters (src/types/instrument.ts `ADSRParams`). -/
structure ADSRParams where
  attack : ℚ
  decay : ℚ
  sustain : ℚ
  release : ℚ
  deriving DecidableEq, Repr

/-- Waveform enum (src/types/instrument.ts `WaveformType`). -/
inductive Waveform
  | square
  | triangle
  | sawtooth
  | pulse
  | noise
  deriving DecidableEq, Repr

/-- Instrument configuration (src/types/instrument.ts `InstrumentConfig`);
the `effects` block is never read by the audio core under verification and is
omitted from the embedding. -/
structure InstrumentConfig where
  waveform : Waveform
  adsr : ADSRParams
  pulseWidth : ℚ
  detune : ℚ
  gain : ℚ
  deriving DecidableEq, Repr

/-- A note on the quantized grid (data model §3; used by AudioEngine/AudioRenderer). -/
structure Note where
  pitch : ℕ
  startBeat : ℕ
  duration : ℕ
  velocity : ℚ
  deriving DecidableEq, Repr

/-- Track type tag (`"synth" | "drums"`). -/
inductive TrackType
  | synth
  | drums
  deriving DecidableEq, Repr

/-- A track of the project snapshot. -/
structure Track where
  id : String
  type : TrackType
  notes : List Note
  muted : Bool
  solo : Bool
  volume : ℚ
  deriving DecidableEq, Repr

/-- The eight drum voices of the pitch→drum lookup tables. -/
inductive DrumType
  | kick
  | snare
  | hihat
  | tom
  | clap
  | openhat
  | crash
  | rimshot
  deriving DecidableEq, Repr

/-- The pitch→drum table used verbatim in `AudioEngine.playBeat` and
`AudioRenderer.renderToWav` (36:'kick', 38:'snare', 42:'hihat', 44:'clap',
45:'tom', 46:'openhat', 47:'rimshot', 49:'crash', anything else falls back
to 'kick' via `drumMap[note.pitch] || 'kick'`). -/
def drumMap (pitch : ℕ) : DrumType :=
  if pitch = 36 then .kick
  else if pitch = 38 then .snare
  else if pitch = 42 then .hihat
  else if pitch = 44 then .clap
  else if pitch = 45 then .tom
  else if pitch = 46 then .openhat
  else if pitch = 47 then .rimshot
  else if pitch = 49 then .crash
  else .kick

/-- One scheduled automation event on an AudioParam
(`setValueAtTime` / `linearRampToValueAtTime` / `exponentialRampToValueAtTime`). -/
inductive AudioEvent
  | setValue (time value : ℚ)
  | linearRamp (time value : ℚ)
  | expRamp (time value : ℚ)
  deriving DecidableEq, Repr

/-- Oscillator shape, with periodic pulse waves identified by the duty cycle
of the cached table loaded via `setPeriodicWave`. -/
inductive OscShape
  | sine
  | triangle
  | square
  | sawtooth
  | pulse (duty : ℚ)
  deriving DecidableEq, Repr

/-- Signal source of one voice: an oscillator, or a white-noise buffer of the
given length in seconds (the buffer is filled with `Math.random()*2-1`;
its contents are not observable by any claim, only its length). -/
inductive VSource
  | osc (shape : OscShape)
  | noise (bufferSeconds : ℚ)
  deriving DecidableEq, Repr

/-- A BiquadFilter in the voice's chain, with the constants the source sets. -/
inductive VFilter
  | highpass (freq : ℚ)
  | bandpass (freq q : ℚ)
  | peaking (freq q gainDb : ℚ)
  deriving DecidableEq, Repr

/-- One sounding voice: the node chain one `play…`/`schedule…` call creates
and connects to the destination bus. -/
structure Voice where
  source : VSource
  midiPitch : Option ℕ := none
  detuneCents : ℚ := 0
  freqEvents : List AudioEvent := []
  gainEvents : List AudioEvent := []
  filters : List VFilter := []
  startTime : ℚ
  stopTime : ℚ
  deriving DecidableEq, Repr

namespace ChiptuneOscillator

/-- `ChiptuneOscillator.getPulseWave` (src/unnamed/part_001, lines 53-68):
starting from `closest = 0.5`, scan the cached duty cycles
`[0.125, 0.25, 0.5, 0.75]` and keep the first one whose absolute difference
to the requested duty cycle is strictly smaller than the best so far.
The function returns `this.pulseWaves.get(closest)`, the table cached under
the selected duty cycle; the selection of that duty cycle is the behaviour
under verification, so the embedding returns the selected key. -/
def getPulseWaveDuty (dutyCycle : ℚ) : ℚ :=
  let duties : List ℚ := [1/8, 1/4, 1/2, 3/4]
  let init : ℚ × ℚ := (1/2, |dutyCycle - 1/2|)
  (duties.foldl
    (fun acc d => if |dutyCycle - d| < acc.2 then (d, |dutyCycle - d|) else acc)
    init).1

/-- `ChiptuneOscillator.applyADSR` (src/unnamed/part_001, lines 121-142):
the five gain automation events placed on the voice's gain node. -/
def applyADSR (startTime duration : ℚ) (adsr : ADSRParams) (maxGain : ℚ) :
    List AudioEvent :=
  let peakGain := maxGain
  let sustainGain := maxGain * adsr.sustain
  let attackEnd := startTime + adsr.attack
  let decayEnd := attackEnd + adsr.decay
  let releaseStart := startTime + max (duration - adsr.release) (adsr.attack + adsr.decay)
  let releaseEnd := releaseStart + adsr.release
  [ .setValue startTime 0,
    .linearRamp attackEnd peakGain,
    .linearRamp decayEnd sustainGain,
    .setValue releaseStart sustainGain,
    .linearRamp releaseEnd 0 ]

/-- `ChiptuneOscillator.playNoise` (src/unnamed/part_001, lines 147-174):
a white-noise buffer of `duration + release + 0.1` seconds through an
ADSR-shaped gain node, stopped at `startTime + duration + release + 0.05`. -/
def playNoise (duration startTime : ℚ) (adsr : ADSRParams) (gain : ℚ) :
    List Voice :=
  [ { source := .noise (duration + adsr.release + 1/10),
      gainEvents := applyADSR startTime duration adsr gain,
      startTime := startTime,
      stopTime := startTime + duration + adsr.release + 5/100 } ]

/-- `ChiptuneOscillator.playNote` (src/unnamed/part_001, lines 80-116):
pulse waveforms load the nearest cached pulse table, noise delegates to
`playNoise` and returns, other waveforms set the native oscillator type;
frequency (from the MIDI pitch) and detune are set at `startTime`, the ADSR
envelope is applied with the config's gain, and the oscillator is stopped at
`startTime + duration + release + 0.05`. -/
def playNote (pitch : ℕ) (duration startTime : ℚ) (config : InstrumentConfig) :
    List Voice :=
  if config.waveform = .noise then
    playNoise duration startTime config.adsr config.gain
  else
    let shape : OscShape :=
      match config.waveform with
      | .pulse => .pulse (getPulseWaveDuty config.pulseWidth)
      | .square => .square
      | .triangle => .triangle
      | .sawtooth => .sawtooth
      | .noise => .square
    [ { source := .osc shape,
        midiPitch := some pitch,
        detuneCents := config.detune,
        gainEvents := applyADSR startTime duration config.adsr config.gain,
        startTime := startTime,
        stopTime := startTime + duration + config.adsr.release + 5/100 } ]

/-- `ChiptuneOscillator.playKick` (src/unnamed/part_001, lines 200-216). -/
def playKick (startTime gain : ℚ) : List Voice :=
  [ { source := .osc .sine,
      freqEvents := [.setValue startTime 150, .expRamp (startTime + 1/10) 40],
      gainEvents := [.setValue startTime gain, .expRamp (startTime + 3/10) (1/1000)],
      startTime := startTime,
      stopTime := startTime + 3/10 } ]

/-- `ChiptuneOscillator.playSnare` (src/unnamed/part_001, lines 218-253):
a 0.2 s noise burst plus a triangle tone swept 180→100 Hz. -/
def playSnare (startTime gain : ℚ) : List Voice :=
  [ { source := .noise (2/10),
      gainEvents := [.setValue startTime (gain * 7/10), .expRamp (startTime + 2/10) (1/1000)],
      startTime := startTime,
      stopTime := startTime + 2/10 },
    { source := .osc .triangle,
      freqEvents := [.setValue startTime 180, .expRamp (startTime + 5/100) 100],
      gainEvents := [.setValue startTime (gain * 3/10), .expRamp (startTime + 1/10) (1/1000)],
      startTime := startTime,
      stopTime := startTime + 1/10 } ]

/-- `ChiptuneOscillator.playHihat` (src/unnamed/part_001, lines 255-283). -/
def playHihat (startTime gain : ℚ) : List Voice :=
  [ { source := .noise (5/100),
      filters := [.highpass 7000],
      gainEvents := [.setValue startTime (gain * 5/10), .expRamp (startTime + 5/100) (1/1000)],
      startTime := startTime,
      stopTime := startTime + 5/100 } ]

/-- `ChiptuneOscillator.playTom` (src/unnamed/part_001, lines 285-301). -/
def playTom (startTime gain : ℚ) : List Voice :=
  [ { source := .osc .sine,
      freqEvents := [.setValue startTime 200, .expRamp (startTime + 15/100) 80],
      gainEvents := [.setValue startTime gain, .expRamp (startTime + 25/100) (1/1000)],
      startTime := startTime,
      stopTime := startTime + 25/100 } ]

/-- `ChiptuneOscillator.playDrum` (src/unnamed/part_001, lines 179-198):
the switch statement has cases only for 'kick', 'snare', 'hihat' and 'tom'
(its declared parameter type is the four-member union
`'kick' | 'snare' | 'hihat' | 'tom'`); any other drum type passed in at
runtime matches no case, so the call creates no voice. -/
def playDrum (drumType : DrumType) (startTime gain : ℚ) : List Voice :=
  match drumType with
  | .kick => playKick startTime gain
  | .snare => playSnare startTime gain
  | .hihat => playHihat startTime gain
  | .tom => playTom startTime gain
  | _ => []

end ChiptuneOscillator

namespace AudioRenderer

/-- `AudioRenderer.getPulseWave` (src/src/audio/Scheduler.ts, lines 375-389):
identical selection loop over the offline context's cached tables. -/
def getPulseWaveDuty (dutyCycle : ℚ) : ℚ :=
  let duties : List ℚ := [1/8, 1/4, 1/2, 3/4]
  let init : ℚ × ℚ := (1/2, |dutyCycle - 1/2|)
  (duties.foldl
    (fun acc d => if |dutyCycle - d| < acc.2 then (d, |dutyCycle - d|) else acc)
    init).1

/-- `AudioRenderer.applyADSR` (src/src/audio/Scheduler.ts, lines 467-488):
textually the same envelope as the live `ChiptuneOscillator.applyADSR`. -/
def applyADSR (startTime duration : ℚ) (adsr : ADSRParams) (maxGain : ℚ) :
    List AudioEvent :=
  let peakGain := maxGain
  let sustainGain := maxGain * adsr.sustain
  let attackEnd := startTime + adsr.attack
  let decayEnd := attackEnd + adsr.decay
  let releaseStart := startTime + max (duration - adsr.release) (adsr.attack + adsr.decay)
  let releaseEnd := releaseStart + adsr.release
  [ .setValue startTime 0,
    .linearRamp attackEnd peakGain,
    .linearRamp decayEnd sustainGain,
    .setValue releaseStart sustainGain,
    .linearRamp releaseEnd 0 ]

/-- `AudioRenderer.scheduleNoise` (src/src/audio/Scheduler.ts, lines 435-462):
same construction as the live `playNoise`, on the offline context. -/
def scheduleNoise (duration startTime : ℚ) (adsr : ADSRParams) (gain : ℚ) :
    List Voice :=
  [ { source := .noise (duration + adsr.release + 1/10),
      gainEvents := applyADSR startTime duration adsr gain,
      startTime := startTime,
      stopTime := startTime + duration + adsr.release + 5/100 } ]

/-- `AudioRenderer.scheduleNote` (src/src/audio/Scheduler.ts, lines 394-430):
offline counterpart of `ChiptuneOscillator.playNote`, identical branching. -/
def scheduleNote (pitch : ℕ) (duration startTime : ℚ) (config : InstrumentConfig) :
    List Voice :=
  if config.waveform = .noise then
    scheduleNoise duration startTime config.adsr config.gain
  else
    let shape : OscShape :=
      match config.waveform with
      | .pulse => .pulse (getPulseWaveDuty config.pulseWidth)
      | .square => .square
      | .triangle => .triangle
      | .sawtooth => .sawtooth
      | .noise => .square
    [ { source := .osc shape,
        midiPitch := some pitch,
        detuneCents := config.detune,
        gainEvents := applyADSR startTime duration config.adsr config.gain,
        startTime := startTime,
        stopTime := startTime + duration + config.adsr.release + 5/100 } ]

/-- `AudioRenderer.scheduleKick` (src/src/audio/Scheduler.ts, lines 528-549). -/
def scheduleKick (startTime gain : ℚ) : List Voice :=
  [ { source := .osc .sine,
      freqEvents := [.setValue startTime 150, .expRamp (startTime + 1/10) 40],
      gainEvents := [.setValue startTime gain, .expRamp (startTime + 3/10) (1/1000)],
      startTime := startTime,
      stopTime := startTime + 3/10 } ]

/-- `AudioRenderer.scheduleSnare` (src/src/audio/Scheduler.ts, lines 551-591). -/
def scheduleSnare (startTime gain : ℚ) : List Voice :=
  [ { source := .noise (2/10),
      gainEvents := [.setValue startTime (gain * 7/10), .expRamp (startTime + 2/10) (1/1000)],
      startTime := startTime,
      stopTime := startTime + 2/10 },
    { source := .osc .triangle,
      freqEvents := [.setValue startTime 180, .expRamp (startTime + 5/100) 100],
      gainEvents := [.setValue startTime (gain * 3/10), .expRamp (startTime + 1/10) (1/1000)],
      startTime := startTime,
      stopTime := startTime + 1/10 } ]

/-- `AudioRenderer.scheduleHihat` (src/src/audio/Scheduler.ts, lines 593-624). -/
def scheduleHihat (startTime gain : ℚ) : List Voice :=
  [ { source := .noise (5/100),
      filters := [.highpass 7000],
      gainEvents := [.setValue startTime (gain * 5/10), .expRamp (startTime + 5/100) (1/1000)],
      startTime := startTime,
      stopTime := startTime + 5/100 } ]

/-- `AudioRenderer.scheduleTom` (src/src/audio/Scheduler.ts, lines 626-647). -/
def scheduleTom (startTime gain : ℚ) : List Voice :=
  [ { source := .osc .sine,
      freqEvents := [.setValue startTime 200, .expRamp (startTime + 15/100) 80],
      gainEvents := [.setValue startTime gain, .expRamp (startTime + 25/100) (1/1000)],
      startTime := startTime,
      stopTime := startTime + 25/100 } ]

/-- `AudioRenderer.scheduleClap` (src/src/audio/Scheduler.ts, lines 649-685):
three staggered band-passed noise bursts, layer `i` delayed by `i·0.01 s`. -/
def scheduleClap (startTime gain : ℚ) : List Voice :=
  (List.range 3).map fun i =>
    let delay : ℚ := i * (1/100)
    { source := .noise (8/100),
      filters := [.bandpass 1500 (3/2)],
      gainEvents := [.setValue (startTime + delay) (gain * 6/10),
                     .expRamp (startTime + delay + 1/10) (1/1000)],
      startTime := startTime + delay,
      stopTime := startTime + delay + 15/100 }

/-- `AudioRenderer.scheduleOpenHat` (src/src/audio/Scheduler.ts, lines 687-724). -/
def scheduleOpenHat (startTime gain : ℚ) : List Voice :=
  [ { source := .noise (2/10),
      filters := [.highpass 6000, .bandpass 10000 (1/2)],
      gainEvents := [.setValue startTime (gain * 4/10), .expRamp (startTime + 2/10) (1/1000)],
      startTime := startTime,
      stopTime := startTime + 25/100 } ]

/-- `AudioRenderer.scheduleCrash` (src/src/audio/Scheduler.ts, lines 726-764). -/
def scheduleCrash (startTime gain : ℚ) : List Voice :=
  [ { source := .noise (8/10),
      filters := [.highpass 4000, .peaking 8000 2 6],
      gainEvents := [.setValue startTime (gain * 5/10), .expRamp (startTime + 8/10) (1/1000)],
      startTime := startTime,
      stopTime := startTime + 1 } ]

/-- `AudioRenderer.scheduleRimshot` (src/src/audio/Scheduler.ts, lines 766-812):
a short triangle blip layered with a high-passed noise click. -/
def scheduleRimshot (startTime gain : ℚ) : List Voice :=
  [ { source := .osc .triangle,
      freqEvents := [.setValue startTime 400, .expRamp (startTime + 2/100) 200],
      gainEvents := [.setValue startTime (gain * 8/10), .expRamp (startTime + 8/100) (1/1000)],
      startTime := startTime,
      stopTime := startTime + 1/10 },
    { source := .noise (3/100),
      filters := [.highpass 3000],
      gainEvents := [.setValue startTime (gain * 4/10), .expRamp (startTime + 5/100) (1/1000)],
      startTime := startTime,
      stopTime := startTime + 5/100 } ]

/-- `AudioRenderer.scheduleDrum` (src/src/audio/Scheduler.ts, lines 493-526):
the offline switch dispatches all eight drum types. -/
def scheduleDrum (drumType : DrumType) (startTime gain : ℚ) : List Voice :=
  match drumType with
  | .kick => scheduleKick startTime gain
  | .snare => scheduleSnare startTime gain
  | .hihat => scheduleHihat startTime gain
  | .tom => scheduleTom startTime gain
  | .clap => scheduleClap startTime gain
  | .openhat => scheduleOpenHat startTime gain
  | .crash => scheduleCrash startTime gain
  | .rimshot => scheduleRimshot startTime gain

end AudioRenderer

/-- Time of the `setValueAtTime(sustainGain, releaseStart)` event — the start
of the release ramp — in the five-event list `applyADSR` produces. -/
def releaseRampStart (events : List AudioEvent) : ℚ :=
  match events with
  | [_, _, _, AudioEvent.setValue t _, _] => t
  | _ => 0

/-- One dispatch decision of the render loop in `AudioRenderer.renderToWav`:
either a drum recipe invocation or a melodic `scheduleNote` call, with the
arguments the loop computes. -/
inductive Dispatch
  | drum (drumType : DrumType) (time gain : ℚ)
  | note (pitch : ℕ) (duration time : ℚ) (config : InstrumentConfig)
  deriving DecidableEq, Repr

/-- The clock time at which a dispatch is scheduled. -/
def Dispatch.time : Dispatch → ℚ
  | .drum _ t _ => t
  | .note _ _ t _ => t

namespace AudioRenderer

/-- The `RenderOptions` argument of `AudioRenderer.renderToWav`
(src/src/audio/Scheduler.ts, lines 233-241); `instruments` is the
`Record<string, InstrumentConfig>` keyed by track id, so lookup may miss. -/
structure RenderOptions where
  tracks : List Track
  instruments : String → Option InstrumentConfig
  tempo : ℚ
  loopStart : ℕ
  loopEnd : ℕ

/-- The dispatch the render loop body builds for one note of `track`:
`time = (note.startBeat - loopStart) * secondsPer16th`,
`noteDuration = note.duration * secondsPer16th`, the track volume and note
velocity folded into the config's gain, and drum tracks routed through the
pitch→drum table (src/src/audio/Scheduler.ts, lines 306-330). -/
def noteDispatch (secondsPer16th : ℚ) (loopStart : ℕ) (track : Track)
    (config : InstrumentConfig) (note : Note) : Dispatch :=
  let time := ((note.startBeat : ℚ) - (loopStart : ℚ)) * secondsPer16th
  let noteDuration := (note.duration : ℚ) * secondsPer16th
  let noteConfig := { config with gain := config.gain * track.volume * note.velocity }
  if track.type = .drums then .drum (drumMap note.pitch) time noteConfig.gain
  else .note note.pitch noteDuration time noteConfig

/-- The dispatches `renderToWav`'s loop emits for one track: muted tracks are
skipped, non-solo tracks are skipped when any track is soloed, tracks with no
registered instrument config are skipped, and of the remaining notes only
those with `loopStart ≤ startBeat < loopEnd` are realized
(src/src/audio/Scheduler.ts, lines 294-335). -/
def trackDispatches (hasSolo : Bool) (instruments : String → Option InstrumentConfig)
    (secondsPer16th : ℚ) (loopStart loopEnd : ℕ) (track : Track) : List Dispatch :=
  if track.muted then []
  else if hasSolo && !track.solo then []
  else
    match instruments track.id with
    | none => []
    | some config =>
        (track.notes.filter fun n =>
          decide (loopStart ≤ n.startBeat) && decide (n.startBeat < loopEnd)).map
          (noteDispatch secondsPer16th loopStart track config)

/-- All dispatches of one offline render pass, in loop order, with
`secondsPer16th = (60 / tempo) / 4` and `hasSolo = tracks.some(t => t.solo)`. -/
def renderDispatches (opts : RenderOptions) : List Dispatch :=
  let secondsPer16th := 60 / opts.tempo / 4
  let hasSolo := opts.tracks.any (·.solo)
  opts.tracks.flatMap
    (trackDispatches hasSolo opts.instruments secondsPer16th opts.loopStart opts.loopEnd)

/-- The voices one dispatch realizes on the offline bus. -/
def dispatchVoices : Dispatch → List Voice
  | .drum dt time gain => scheduleDrum dt time gain
  | .note pitch duration time config => scheduleNote pitch duration time config

/-- Observable result of `AudioRenderer.renderToWav`
(src/src/audio/Scheduler.ts, lines 250-346): the dispatch list, the voices
they realize, the render duration `(loopEnd - loopStart)·secondsPer16th + 1`
seconds, and the offline context's 2 channels at the default 44100 Hz. -/
structure RenderResult where
  dispatches : List Dispatch
  voices : List Voice
  durationSeconds : ℚ
  channels : ℕ
  sampleRate : ℕ

/-- `AudioRenderer.renderToWav` up to (but not including) WAV serialization. -/
def renderToWav (opts : RenderOptions) : RenderResult :=
  let secondsPer16th := 60 / opts.tempo / 4
  let totalBeats : ℚ := (opts.loopEnd : ℚ) - (opts.loopStart : ℚ)
  let dispatches := renderDispatches opts
  { dispatches := dispatches,
    voices := dispatches.flatMap dispatchVoices,
    durationSeconds := totalBeats * secondsPer16th + 1,
    channels := 2,
    sampleRate := 44100 }

end AudioRenderer

namespace AudioEngine

/-- `Scheduler.durationToTime` (src/src/audio/Scheduler.ts, lines 225-228):
`(duration * (60 / tempo)) / 4` seconds for a note length in 16th-note beats. -/
def durationToTime (tempo : ℚ) (duration : ℕ) : ℚ :=
  (duration : ℚ) * (60 / tempo) / 4

/-- `AudioEngine.playNote` (src/src/audio/AudioEngine.ts, lines 142-154):
converts the note's beat duration to seconds through the scheduler's
`durationToTime` (the scheduler's tempo is passed explicitly here), folds the
note's velocity into the config's gain, and forwards to
`ChiptuneOscillator.playNote`. -/
def playNote (tempo : ℚ) (note : Note) (time : ℚ) (config : InstrumentConfig) :
    List Voice :=
  let duration := durationToTime tempo note.duration
  let noteConfig := { config with gain := config.gain * note.velocity }
  ChiptuneOscillator.playNote note.pitch duration time noteConfig

/-- `AudioEngine.playDrum` (src/src/audio/AudioEngine.ts, lines 159-166):
forwards to `ChiptuneOscillator.playDrum`. -/
def playDrum (drumType : DrumType) (time velocity : ℚ) : List Voice :=
  ChiptuneOscillator.playDrum drumType time velocity

/-- `AudioEngine.playBeat` (src/src/audio/AudioEngine.ts, lines 171-219):
for every non-muted (and, under solo, soloed) track, every note with
`startBeat === beat` whose track has a registered config is played: drum
tracks through the pitch→drum table with the folded gain, synth tracks
through `AudioEngine.playNote` with the folded config. -/
def playBeat (tempo : ℚ) (tracks : List Track)
    (instruments : String → Option InstrumentConfig) (beat : ℕ) (time : ℚ) :
    List Voice :=
  let hasSolo := tracks.any (·.solo)
  tracks.flatMap fun track =>
    if track.muted then []
    else if hasSolo && !track.solo then []
    else
      (track.notes.filter fun n => decide (n.startBeat = beat)).flatMap fun note =>
        match instruments track.id with
        | none => []
        | some config =>
            let noteConfig :=
              { config with gain := config.gain * track.volume * note.velocity }
            if track.type = .drums then
              playDrum (drumMap note.pitch) time noteConfig.gain
            else
              playNote tempo note time noteConfig

/-- The engine's initialization flag: `context`, `oscillator` and `_scheduler`
are all non-null exactly when `initialize()` has completed, so one flag
models the null checks of the playback controls. -/
structure EngineState where
  initialized : Bool
  deriving DecidableEq, Repr

/-- The `scheduler` getter (src/src/audio/AudioEngine.ts, lines 102-107):
throws `'AudioEngine not initialized. Call initialize() first.'` when the
scheduler is null; otherwise returns it (modelled as `Unit`). -/
def schedulerAccess (s : EngineState) : Except String Unit :=
  if s.initialized then .ok ()
  else .error "AudioEngine not initialized. Call initialize() first."

/-- `AudioEngine.playNote` as invoked on an engine that may be uninitialized:
`if (!this.oscillator || !this.context) return` — a silent no-op, no error,
no self-initialization. -/
def playNoteCall (s : EngineState) (tempo : ℚ) (note : Note) (time : ℚ)
    (config : InstrumentConfig) : Except String (EngineState × List Voice) :=
  if s.initialized then .ok (s, playNote tempo note time config) else .ok (s, [])

/-- `AudioEngine.playDrum` with its `if (!this.oscillator) return` guard. -/
def playDrumCall (s : EngineState) (drumType : DrumType) (time velocity : ℚ) :
    Except String (EngineState × List Voice) :=
  if s.initialized then .ok (s, playDrum drumType time velocity) else .ok (s, [])

/-- `AudioEngine.playBeat` with its `if (!this.context) return` guard. -/
def playBeatCall (s : EngineState) (tempo : ℚ) (tracks : List Track)
    (instruments : String → Option InstrumentConfig) (beat : ℕ) (time : ℚ) :
    Except String (EngineState × List Voice) :=
  if s.initialized then .ok (s, playBeat tempo tracks instruments beat time)
  else .ok (s, [])

/-- `AudioEngine.previewNote` (src/src/audio/AudioEngine.ts, lines 224-238):
silently returns when uninitialized; otherwise replaces the config's ADSR by
the fixed `{attack: 0.01, decay: 0.1, sustain: 0.5, release: 0.1}` envelope
and plays one voice of 0.2 seconds at the context's current time. -/
def previewNoteCall (s : EngineState) (pitch : ℕ) (now : ℚ)
    (config : InstrumentConfig) : Except String (EngineState × List Voice) :=
  if s.initialized then
    .ok (s, ChiptuneOscillator.playNote pitch (2/10) now
      { config with adsr := { attack := 1/100, decay := 1/10, sustain := 1/2, release := 1/10 } })
  else .ok (s, [])

end AudioEngine

namespace Scheduler

/-- The look-ahead scheduler's mutable fields (src/src/audio/Scheduler.ts,
lines 10-42).  Callbacks are modelled as opaque handles (`ℕ` identifiers /
`Option ℕ`).  Three ghost fields record observability the claims need:
`beatsAdvanced` counts `advanceNote` calls since the playback session
started, and `timersSpawned` / `visualLoopsSpawned` count how many times
`schedule()` / `startVisualUpdater()` loops were launched. -/
structure SchedState where
  isPlaying : Bool
  currentBeat : ℕ
  nextNoteTime : ℚ
  tempo : ℚ
  notesInQueue : List (ℕ × ℚ)
  onBeatCallback : Option ℕ
  onVisualBeatCallback : Option ℕ
  loopStart : ℕ
  loopEnd : ℕ
  loopEnabled : Bool
  beatsAdvanced : ℕ
  timersSpawned : ℕ
  visualLoopsSpawned : ℕ
  deriving DecidableEq, Repr

/-- Field initializers of the `Scheduler` class (tempo 120, loop [0, 16),
looping enabled, stopped). -/
def initState : SchedState :=
  { isPlaying := false, currentBeat := 0, nextNoteTime := 0, tempo := 120,
    notesInQueue := [], onBeatCallback := none, onVisualBeatCallback := none,
    loopStart := 0, loopEnd := 16, loopEnabled := true,
    beatsAdvanced := 0, timersSpawned := 0, visualLoopsSpawned := 0 }

/-- `Scheduler.start` (src/src/audio/Scheduler.ts, lines 47-65): an early
`if (this.isPlaying) return` guard, then the session is (re)initialized at
the audio clock's current time `now` and the scheduling and visual loops are
launched. -/
def start (tempo : ℚ) (onBeat : ℕ) (onVisualBeat : Option ℕ) (startBeat : ℕ)
    (now : ℚ) (s : SchedState) : SchedState :=
  if s.isPlaying then s
  else
    { s with
      tempo := tempo, onBeatCallback := some onBeat,
      onVisualBeatCallback := onVisualBeat, isPlaying := true,
      currentBeat := startBeat, nextNoteTime := now, notesInQueue := [],
      beatsAdvanced := 0,
      timersSpawned := s.timersSpawned + 1,
      visualLoopsSpawned := s.visualLoopsSpawned + 1 }

/-- `Scheduler.stop` (src/src/audio/Scheduler.ts, lines 70-85): halts both
loops, clears the queue, resets `currentBeat` to 0. -/
def stop (s : SchedState) : SchedState :=
  { s with isPlaying := false, notesInQueue := [], currentBeat := 0 }

/-- `Scheduler.pause` (src/src/audio/Scheduler.ts, lines 90-102): halts both
loops, keeps `currentBeat` and the queue. -/
def pause (s : SchedState) : SchedState :=
  { s with isPlaying := false }

/-- `Scheduler.resume` (src/src/audio/Scheduler.ts, lines 107-115). -/
def resume (now : ℚ) (s : SchedState) : SchedState :=
  if s.isPlaying then s
  else
    { s with
      isPlaying := true, nextNoteTime := now,
      timersSpawned := s.timersSpawned + 1,
      visualLoopsSpawned := s.visualLoopsSpawned + 1 }

/-- `Scheduler.setTempo` (src/src/audio/Scheduler.ts, lines 120-122):
clamps to [40, 240]. -/
def setTempo (tempo : ℚ) (s : SchedState) : SchedState :=
  { s with tempo := max 40 (min 240 tempo) }

/-- `Scheduler.setLoop` (src/src/audio/Scheduler.ts, lines 127-131):
overwrites the loop fields; `currentBeat` is not touched. -/
def setLoop (startB endB : ℕ) (enabled : Bool) (s : SchedState) : SchedState :=
  { s with loopStart := startB, loopEnd := endB, loopEnabled := enabled }

/-- `Scheduler.scheduleNote` (src/src/audio/Scheduler.ts, lines 167-173):
pushes `(currentBeat, nextNoteTime)` onto the visual queue (the beat
callback's voice dispatch is observed through `AudioEngine.playBeat`). -/
def scheduleNote (s : SchedState) : SchedState :=
  { s with notesInQueue := s.notesInQueue ++ [(s.currentBeat, s.nextNoteTime)] }

/-- `Scheduler.advanceNote` (src/src/audio/Scheduler.ts, lines 178-190):
`nextNoteTime += (60/tempo)/4`, `currentBeat++`, and when looping is enabled
and `currentBeat >= loopEnd` the beat wraps to `loopStart`. -/
def advanceNote (s : SchedState) : SchedState :=
  let secondsPerBeat := 60 / s.tempo
  let secondsPer16th := secondsPerBeat / 4
  let nextBeat := s.currentBeat + 1
  { s with
    nextNoteTime := s.nextNoteTime + secondsPer16th,
    currentBeat :=
      if s.loopEnabled = true ∧ s.loopEnd ≤ nextBeat then s.loopStart else nextBeat,
    beatsAdvanced := s.beatsAdvanced + 1 }

/-- One iteration of the `while` body of `Scheduler.schedule`
(src/src/audio/Scheduler.ts, lines 155-158): `scheduleNote` then
`advanceNote`.  The loop runs only while the scheduler is playing. -/
def tickOnce (s : SchedState) : SchedState :=
  advanceNote (scheduleNote s)

/-- The scheduler's step relation: any public control call, or one scheduling
iteration (gated on `isPlaying`, as `schedule()` returns immediately when
stopped), or one visual-queue drain step. -/
inductive Step : SchedState → SchedState → Prop
  | start (tempo : ℚ) (onBeat : ℕ) (onVisualBeat : Option ℕ) (startBeat : ℕ)
      (now : ℚ) (s : SchedState) : Step s (start tempo onBeat onVisualBeat startBeat now s)
  | stop (s : SchedState) : Step s (stop s)
  | pause (s : SchedState) : Step s (pause s)
  | resume (now : ℚ) (s : SchedState) : Step s (resume now s)
  | setTempo (tempo : ℚ) (s : SchedState) : Step s (setTempo tempo s)
  | setLoop (startB endB : ℕ) (enabled : Bool) (s : SchedState) :
      Step s (setLoop startB endB enabled s)
  | tick (s : SchedState) : s.isPlaying = true → Step s (tickOnce s)
  | visualDrain (s : SchedState) : s.isPlaying = true →
      Step s { s with notesInQueue := s.notesInQueue.tail }

/-- States reachable from the freshly constructed scheduler. -/
def Reachable (s : SchedState) : Prop :=
  Relation.ReflTransGen Step initState s

end Scheduler

/-- The rendered `AudioBuffer` handed to `AudioRenderer.bufferToWav`:
channel count, sample rate, frame count, and per-channel float data
(`channelData ch i` is frame `i` of channel `ch`). -/
structure AudioBuffer where
  numberOfChannels : ℕ
  sampleRate : ℕ
  length : ℕ
  channelData : ℕ → ℕ → ℚ

namespace AudioRenderer

/-- `view.setUint16(_, n, true)`: the two little-endian bytes of `n`. -/
def u16le (n : ℕ) : List ℕ :=
  [n % 256, n / 256 % 256]

/-- `view.setUint32(_, n, true)`: the four little-endian bytes of `n`. -/
def u32le (n : ℕ) : List ℕ :=
  [n % 256, n / 256 % 256, n / 65536 % 256, n / 16777216 % 256]

/-- `Math.max(-1, Math.min(1, sample))`. -/
def clampSample (s : ℚ) : ℚ :=
  max (-1) (min 1 s)

/-- `sample < 0 ? sample * 0x8000 : sample * 0x7FFF` applied to the clamped
sample. -/
def scaleSample (s : ℚ) : ℚ :=
  if clampSample s < 0 then clampSample s * 32768 else clampSample s * 32767

/-- Truncation toward zero, as JS `ToIntegerOrInfinity` performs on the float
argument of `DataView.setInt16`. -/
def truncQ (x : ℚ) : ℤ :=
  if x < 0 then ⌈x⌉ else ⌊x⌋

/-- `view.setInt16(_, x, true)`: truncate toward zero, take the 16-bit two's
complement representation, and write its two little-endian bytes. -/
def int16Bytes (x : ℚ) : List ℕ :=
  u16le (truncQ x % 65536).toNat

/-- The interleaved sample stream of the data section: the source iterates
frames in the outer loop and channels in the inner loop
(src/src/audio/Scheduler.ts, lines 857-865). -/
def interleavedSamples (b : AudioBuffer) : List ℚ :=
  (List.range b.length).flatMap fun i =>
    (List.range b.numberOfChannels).map fun ch => b.channelData ch i

/-- The 44-byte RIFF/WAVE/fmt/data header `AudioRenderer.bufferToWav` writes
(src/src/audio/Scheduler.ts, lines 817-849): format 1 (PCM), bit depth 16,
`blockAlign = numChannels * 2`, `dataLength = buffer.length * blockAlign`,
total file length `44 + dataLength`. -/
def wavHeader (b : AudioBuffer) : List ℕ :=
  let numChannels := b.numberOfChannels
  let blockAlign := numChannels * 2
  let dataLength := b.length * blockAlign
  let bufferLength := 44 + dataLength
  [82, 73, 70, 70] ++ u32le (bufferLength - 8) ++ [87, 65, 86, 69] ++
  [102, 109, 116, 32] ++ u32le 16 ++ u16le 1 ++ u16le numChannels ++
  u32le b.sampleRate ++ u32le (b.sampleRate * blockAlign) ++
  u16le blockAlign ++ u16le 16 ++
  [100, 97, 116, 97] ++ u32le dataLength

/-- `AudioRenderer.bufferToWav` (src/src/audio/Scheduler.ts, lines 817-868):
header followed by each interleaved sample clamped, scaled and written as a
little-endian int16. -/
def bufferToWav (b : AudioBuffer) : List ℕ :=
  wavHeader b ++ (interleavedSamples b).flatMap fun s => int16Bytes (scaleSample s)

/-- Decode a little-endian int16 stream (two's complement). -/
def decodeInt16s : List ℕ → List ℤ
  | b0 :: b1 :: rest =>
      (if b0 + 256 * b1 < 32768 then ((b0 + 256 * b1 : ℕ) : ℤ)
       else ((b0 + 256 * b1 : ℕ) : ℤ) - 65536) :: decodeInt16s rest
  | _ => []

/-- A parsed WAV file: every field of the fixed 44-byte header, plus the
decoded int16 samples of the data chunk. -/
structure WavFile where
  riffChunkSize : ℕ
  fmtChunkSize : ℕ
  format : ℕ
  numChannels : ℕ
  sampleRate : ℕ
  byteRate : ℕ
  blockAlign : ℕ
  bitsPerSample : ℕ
  dataLength : ℕ
  samples : List ℤ
  deriving DecidableEq, Repr

/-- A strict little-endian RIFF/WAVE/fmt/data parser: accepts exactly the
44-byte layout with the `RIFF`, `WAVE`, `fmt ` and `data` magics in place and
decodes the rest. -/
def parseWav (bytes : List ℕ) : Option WavFile :=
  match bytes with
  | 82 :: 73 :: 70 :: 70 :: s0 :: s1 :: s2 :: s3 ::
    87 :: 65 :: 86 :: 69 ::
    102 :: 109 :: 116 :: 32 :: f0 :: f1 :: f2 :: f3 ::
    fm0 :: fm1 :: c0 :: c1 ::
    r0 :: r1 :: r2 :: r3 :: br0 :: br1 :: br2 :: br3 ::
    ba0 :: ba1 :: bp0 :: bp1 ::
    100 :: 97 :: 116 :: 97 :: d0 :: d1 :: d2 :: d3 :: rest =>
      some
        { riffChunkSize := s0 + 256 * s1 + 65536 * s2 + 16777216 * s3,
          fmtChunkSize := f0 + 256 * f1 + 65536 * f2 + 16777216 * f3,
          format := fm0 + 256 * fm1,
          numChannels := c0 + 256 * c1,
          sampleRate := r0 + 256 * r1 + 65536 * r2 + 16777216 * r3,
          byteRate := br0 + 256 * br1 + 65536 * br2 + 16777216 * br3,
          blockAlign := ba0 + 256 * ba1,
          bitsPerSample := bp0 + 256 * bp1,
          dataLength := d0 + 256 * d1 + 65536 * d2 + 16777216 * d3,
          samples := decodeInt16s rest }
  | _ => none

end AudioRenderer

/-- `DEFAULT_INSTRUMENT` (src/src/types/instrument.ts): square wave,
ADSR {0.01, 0.1, 0.7, 0.2}, pulseWidth 0.5, detune 0, gain 0.8. -/
def DEFAULT_INSTRUMENT : InstrumentConfig :=
  { waveform := .square,
    adsr := { attack := 1/100, decay := 1/10, sustain := 7/10, release := 2/10 },
    pulseWidth := 1/2, detune := 0, gain := 8/10 }

/-- One iteration of the nearest-duty scan loop of `getPulseWave`, as a named
function (definitionally equal to the lambda the fold uses). -/
def nearestStep (dc : ℚ) (acc : ℚ × ℚ) (c : ℚ) : ℚ × ℚ :=
  if |dc - c| < acc.2 then (c, |dc - c|) else acc

/-- A one-track snapshot with a single half-velocity note, used to compare the
gain the live path and the offline renderer assign to the same note. -/
def halfVelTrack : Track :=
  { id := "t1", type := .synth, notes := [⟨69, 0, 4, 1/2⟩],
    muted := false, solo := false, volume := 1 }

/-- Instrument registry for `halfVelTrack`: full gain, square wave. -/
def halfVelInstruments : String → Option InstrumentConfig := fun id =>
  if id = "t1" then
    some { waveform := .square, adsr := ⟨1/100, 1/10, 7/10, 2/10⟩,
           pulseWidth := 1/2, detune := 0, gain := 1 }
  else none

/-- The peak gain of each voice in a list: the target value of the attack ramp
(the second envelope event), which is the `maxGain` given to `applyADSR`. -/
def peakGains (vs : List Voice) : List ℚ :=
  vs.map fun v =>
    match v.gainEvents with
    | _ :: AudioEvent.linearRamp _ g :: _ => g
    | _ => 0

/-!  ## Theorems  -/

/-- C2: for every `(startTime, duration, adsr, peakGain)`, both the live
`ChiptuneOscillator.applyADSR` and the offline `AudioRenderer.applyADSR`
place the release ramp start at
`startTime + max (duration - release) (attack + decay)`; in particular, for
nonnegative release and `duration < attack + decay`, the release starts
exactly `attack + decay` after `startTime`, never earlier. -/
theorem applyADSR_release_clamp (startTime duration : ℚ) (adsr : ADSRParams) (maxGain : ℚ) :
    releaseRampStart (ChiptuneOscillator.applyADSR startTime duration adsr maxGain) =
      startTime + max (duration - adsr.release) (adsr.attack + adsr.decay) ∧
    releaseRampStart (AudioRenderer.applyADSR startTime duration adsr maxGain) =
      releaseRampStart (ChiptuneOscillator.applyADSR startTime duration adsr maxGain) ∧
    (0 ≤ adsr.release → duration < adsr.attack + adsr.decay →
      releaseRampStart (ChiptuneOscillator.applyADSR startTime duration adsr maxGain) =
        startTime + (adsr.attack + adsr.decay)) := by
  refine ⟨rfl, rfl, fun hr hd => ?_⟩
  show startTime + max (duration - adsr.release) (adsr.attack + adsr.decay) =
    startTime + (adsr.attack + adsr.decay)
  rw [max_eq_right (by linarith)]

/-- Witness for C2 at a concrete short note (duration 0.01 s, attack+decay 0.2 s). -/
theorem applyADSR_release_clamp_witness :
    ((0:ℚ) ≤ 1/10 ∧ (1:ℚ)/100 < 1/10 + 1/10) ∧
    releaseRampStart (ChiptuneOscillator.applyADSR 0 (1/100)
      { attack := 1/10, decay := 1/10, sustain := 1/2, release := 1/10 } 1) =
      0 + (1/10 + 1/10) :=
  ⟨⟨by norm_num, by norm_num⟩,
    (applyADSR_release_clamp 0 (1/100)
      { attack := 1/10, decay := 1/10, sustain := 1/2, release := 1/10 } 1).2.2
      (by norm_num) (by norm_num)⟩

/-- C9: calling `Scheduler.start` while the scheduler is already playing
returns immediately and leaves the whole scheduler state unchanged — tempo,
beat, clock, queue, callbacks, loop settings, and the ghost counters of
spawned scheduling/visual loops. -/
theorem start_whilePlaying_noop (tempo : ℚ) (onBeat : ℕ) (onVisualBeat : Option ℕ)
    (startBeat : ℕ) (now : ℚ) (s : Scheduler.SchedState) (h : s.isPlaying = true) :
    Scheduler.start tempo onBeat onVisualBeat startBeat now s = s := by
  simp [Scheduler.start, h]

/-- Witness for C9: a freshly started scheduler is playing, and a second
`start` with different arguments does not change it. -/
theorem start_whilePlaying_noop_witness :
    (Scheduler.start 120 0 none 0 0 Scheduler.initState).isPlaying = true ∧
    Scheduler.start 90 1 (some 2) 5 3 (Scheduler.start 120 0 none 0 0 Scheduler.initState) =
      Scheduler.start 120 0 none 0 0 Scheduler.initState :=
  ⟨rfl, start_whilePlaying_noop 90 1 (some 2) 5 3 _ rfl⟩

/-- C3 (code evaluated at the failing inputs): the live
`ChiptuneOscillator.playDrum` creates no voice at all for clap, openhat,
crash and rimshot — its switch has only four cases — while the offline
`AudioRenderer.scheduleDrum` creates the full recipes for all eight drum
types (3 staggered bursts for clap, 2 layers for rimshot and snare, 1 voice
for the rest). -/
theorem liveDrum_vs_offlineDrum :
    ChiptuneOscillator.playDrum .clap 0 1 = [] ∧
    ChiptuneOscillator.playDrum .openhat 0 1 = [] ∧
    ChiptuneOscillator.playDrum .crash 0 1 = [] ∧
    ChiptuneOscillator.playDrum .rimshot 0 1 = [] ∧
    (AudioRenderer.scheduleDrum .clap 0 1).length = 3 ∧
    (AudioRenderer.scheduleDrum .openhat 0 1).length = 1 ∧
    (AudioRenderer.scheduleDrum .crash 0 1).length = 1 ∧
    (AudioRenderer.scheduleDrum .rimshot 0 1).length = 2 ∧
    (ChiptuneOscillator.playDrum .kick 0 1).length = 1 ∧
    (ChiptuneOscillator.playDrum .snare 0 1).length = 2 ∧
    (ChiptuneOscillator.playDrum .hihat 0 1).length = 1 ∧
    (ChiptuneOscillator.playDrum .tom 0 1).length = 1 := by
  refine ⟨rfl, rfl, rfl, rfl, rfl, rfl, rfl, rfl, rfl, rfl, rfl, rfl⟩

/-- C8 counterexample: `previewNote` on an uninitialized engine succeeds as a
silent no-op — it raises no error, creates no voice, and leaves the engine
uninitialized — contradicting the claim that every playback control invoked
before initialization fails fast with an error. -/
theorem preInit_previewNote_silent :
    AudioEngine.previewNoteCall ⟨false⟩ 60 0 DEFAULT_INSTRUMENT = .ok (⟨false⟩, []) := rfl

/-- C8 amended: before `initialize()` completes, only the `scheduler` getter
fails fast with the descriptive error; `playNote`, `playBeat`, `previewNote`
and `playDrum` return silently without creating a voice, and none of them
initializes the engine as a side effect. -/
theorem uninitialized_calls_spec (s : AudioEngine.EngineState) (h : s.initialized = false)
    (tempo time now velocity : ℚ) (note : Note) (pitch beat : ℕ)
    (config : InstrumentConfig) (tracks : List Track)
    (instruments : String → Option InstrumentConfig) (dt : DrumType) :
    AudioEngine.schedulerAccess s =
      .error "AudioEngine not initialized. Call initialize() first." ∧
    AudioEngine.playNoteCall s tempo note time config = .ok (s, []) ∧
    AudioEngine.playBeatCall s tempo tracks instruments beat time = .ok (s, []) ∧
    AudioEngine.previewNoteCall s pitch now config = .ok (s, []) ∧
    AudioEngine.playDrumCall s dt time velocity = .ok (s, []) := by
  simp [AudioEngine.schedulerAccess, AudioEngine.playNoteCall, AudioEngine.playBeatCall,
    AudioEngine.previewNoteCall, AudioEngine.playDrumCall, h]

/-- Witness for the amended C8 at a concrete uninitialized engine. -/
theorem uninitialized_calls_spec_witness :
    (AudioEngine.EngineState.mk false).initialized = false ∧
    (AudioEngine.schedulerAccess ⟨false⟩ =
      .error "AudioEngine not initialized. Call initialize() first." ∧
    AudioEngine.playNoteCall ⟨false⟩ 120 ⟨69, 0, 4, 1⟩ 0 DEFAULT_INSTRUMENT = .ok (⟨false⟩, []) ∧
    AudioEngine.playBeatCall ⟨false⟩ 120 [] (fun _ => none) 0 0 = .ok (⟨false⟩, []) ∧
    AudioEngine.previewNoteCall ⟨false⟩ 60 0 DEFAULT_INSTRUMENT = .ok (⟨false⟩, []) ∧
    AudioEngine.playDrumCall ⟨false⟩ .kick 0 (8/10) = .ok (⟨false⟩, [])) :=
  ⟨rfl, uninitialized_calls_spec ⟨false⟩ rfl 120 0 0 (8/10) ⟨69, 0, 4, 1⟩ 60 0
    DEFAULT_INSTRUMENT [] (fun _ => none) .kick⟩

/-- C10: on an initialized engine, `previewNote` plays exactly one voice
starting at the current audio-context time, 0.2 s long (stopped at
`now + 0.2 + release + 0.05` with the fixed release 0.1), whose envelope is
the fixed `{attack 0.01, decay 0.1, sustain 0.5, release 0.1}` at peak
`config.gain` (no velocity scaling), and the result is independent of the
ADSR stored in the supplied config; on an uninitialized engine the call
returns silently with no voice. -/
theorem previewNote_spec (s : AudioEngine.EngineState) (pitch : ℕ) (now : ℚ)
    (config : InstrumentConfig) :
    (s.initialized = true → ∃ v : Voice,
      AudioEngine.previewNoteCall s pitch now config = .ok (s, [v]) ∧
      v.startTime = now ∧
      v.stopTime = now + 2/10 + 1/10 + 5/100 ∧
      v.gainEvents =
        [ .setValue now 0,
          .linearRamp (now + 1/100) config.gain,
          .linearRamp (now + 1/100 + 1/10) (config.gain * (1/2)),
          .setValue (now + 11/100) (config.gain * (1/2)),
          .linearRamp (now + 11/100 + 1/10) 0 ] ∧
      (∀ a : ADSRParams,
        AudioEngine.previewNoteCall s pitch now { config with adsr := a } =
          AudioEngine.previewNoteCall s pitch now config)) ∧
    (s.initialized = false →
      AudioEngine.previewNoteCall s pitch now config = .ok (s, [])) := by
  constructor
  · intro h
    have hev : ChiptuneOscillator.applyADSR now (2/10)
        { attack := 1/100, decay := 1/10, sustain := 1/2, release := 1/10 } config.gain =
        [ .setValue now 0,
          .linearRamp (now + 1/100) config.gain,
          .linearRamp (now + 1/100 + 1/10) (config.gain * (1/2)),
          .setValue (now + 11/100) (config.gain * (1/2)),
          .linearRamp (now + 11/100 + 1/10) 0 ] := by
      simp only [ChiptuneOscillator.applyADSR]
      norm_num
    by_cases hw : config.waveform = .noise
    · refine ⟨{ source := .noise (2/10 + 1/10 + 1/10),
                gainEvents := ChiptuneOscillator.applyADSR now (2/10)
                  { attack := 1/100, decay := 1/10, sustain := 1/2, release := 1/10 }
                  config.gain,
                startTime := now,
                stopTime := now + 2/10 + 1/10 + 5/100 }, ?_, rfl, rfl, hev, fun a => rfl⟩
      simp [AudioEngine.previewNoteCall, h, ChiptuneOscillator.playNote, hw,
        ChiptuneOscillator.playNoise]
    · refine ⟨{ source := .osc (match config.waveform with
                  | .pulse => .pulse (ChiptuneOscillator.getPulseWaveDuty config.pulseWidth)
                  | .square => .square
                  | .triangle => .triangle
                  | .sawtooth => .sawtooth
                  | .noise => .square),
                midiPitch := some pitch,
                detuneCents := config.detune,
                gainEvents := ChiptuneOscillator.applyADSR now (2/10)
                  { attack := 1/100, decay := 1/10, sustain := 1/2, release := 1/10 }
                  config.gain,
                startTime := now,
                stopTime := now + 2/10 + 1/10 + 5/100 }, ?_, rfl, rfl, hev, fun a => rfl⟩
      simp [AudioEngine.previewNoteCall, h, ChiptuneOscillator.playNote, hw]
  · intro h
    simp [AudioEngine.previewNoteCall, h]

/-- Witness for C10 on an initialized engine with the default instrument. -/
theorem previewNote_spec_witness :
    ∃ v : Voice,
      AudioEngine.previewNoteCall ⟨true⟩ 60 0 DEFAULT_INSTRUMENT = .ok (⟨true⟩, [v]) ∧
      v.startTime = 0 ∧
      v.stopTime = 0 + 2/10 + 1/10 + 5/100 ∧
      v.gainEvents =
        [ .setValue 0 0,
          .linearRamp (0 + 1/100) DEFAULT_INSTRUMENT.gain,
          .linearRamp (0 + 1/100 + 1/10) (DEFAULT_INSTRUMENT.gain * (1/2)),
          .setValue (0 + 11/100) (DEFAULT_INSTRUMENT.gain * (1/2)),
          .linearRamp (0 + 11/100 + 1/10) 0 ] ∧
      (∀ a : ADSRParams,
        AudioEngine.previewNoteCall ⟨true⟩ 60 0 { DEFAULT_INSTRUMENT with adsr := a } =
          AudioEngine.previewNoteCall ⟨true⟩ 60 0 DEFAULT_INSTRUMENT) :=
  (previewNote_spec ⟨true⟩ 60 0 DEFAULT_INSTRUMENT).1 rfl

/-- C7 counterexample: start playback at beat 0, advance one beat (to beat 1),
then call `setLoop(10, 12, true)`.  The resulting state is reachable, looping
is enabled and playback has advanced past one beat, yet
`currentBeat = 1 < loopStart = 10`, so the claimed invariant
`currentBeat ∈ [loopStart, loopEnd)` does not hold for every reachable state. -/
theorem setLoop_breaks_beat_invariant :
    Scheduler.Reachable (Scheduler.setLoop 10 12 true (Scheduler.tickOnce
      (Scheduler.start 120 0 none 0 0 Scheduler.initState))) ∧
    (Scheduler.setLoop 10 12 true (Scheduler.tickOnce
      (Scheduler.start 120 0 none 0 0 Scheduler.initState))).loopEnabled = true ∧
    1 ≤ (Scheduler.setLoop 10 12 true (Scheduler.tickOnce
      (Scheduler.start 120 0 none 0 0 Scheduler.initState))).beatsAdvanced ∧
    ¬((Scheduler.setLoop 10 12 true (Scheduler.tickOnce
      (Scheduler.start 120 0 none 0 0 Scheduler.initState))).loopStart ≤
      (Scheduler.setLoop 10 12 true (Scheduler.tickOnce
      (Scheduler.start 120 0 none 0 0 Scheduler.initState))).currentBeat) := by
  refine ⟨?_, rfl, by decide, by decide⟩
  have h1 : Scheduler.Step Scheduler.initState
      (Scheduler.start 120 0 none 0 0 Scheduler.initState) :=
    Scheduler.Step.start 120 0 none 0 0 Scheduler.initState
  have h2 : Scheduler.Step (Scheduler.start 120 0 none 0 0 Scheduler.initState)
      (Scheduler.tickOnce (Scheduler.start 120 0 none 0 0 Scheduler.initState)) :=
    Scheduler.Step.tick _ rfl
  have h3 : Scheduler.Step
      (Scheduler.tickOnce (Scheduler.start 120 0 none 0 0 Scheduler.initState))
      (Scheduler.setLoop 10 12 true (Scheduler.tickOnce
        (Scheduler.start 120 0 none 0 0 Scheduler.initState))) :=
    Scheduler.Step.setLoop 10 12 true _
  exact Relation.ReflTransGen.head h1 (Relation.ReflTransGen.head h2
    (Relation.ReflTransGen.single h3))

/-- C7 amended: with looping enabled and `loopStart < loopEnd`, every beat
advance leaves `currentBeat < loopEnd`, and keeps `currentBeat ≥ loopStart`
whenever the advance departs from a beat `≥ loopStart − 1`; `setLoop` itself
never relocates `currentBeat`, so a `setLoop` call during playback may leave
the beat outside the new bounds until the next natural wrap. -/
theorem advance_loop_bounds (s : Scheduler.SchedState) (hEn : s.loopEnabled = true)
    (hlt : s.loopStart < s.loopEnd) :
    ((Scheduler.advanceNote s).currentBeat < s.loopEnd ∧
      (s.loopStart ≤ s.currentBeat + 1 →
        s.loopStart ≤ (Scheduler.advanceNote s).currentBeat)) ∧
    (∀ (a b : ℕ) (e : Bool), (Scheduler.setLoop a b e s).currentBeat = s.currentBeat) := by
  refine ⟨?_, fun a b e => rfl⟩
  unfold Scheduler.advanceNote
  by_cases hc : s.loopEnabled = true ∧ s.loopEnd ≤ s.currentBeat + 1
  · simp only [hc, if_pos]
    exact ⟨hlt, fun _ => le_refl _⟩
  · simp only [hc, if_neg, not_false_eq_true]
    have hub : s.currentBeat + 1 < s.loopEnd := by
      rcases not_and_or.mp hc with h | h
      · exact absurd hEn h
      · omega
    exact ⟨hub, fun h => h⟩

/-- Witness for the amended C7 at the scheduler's initial state. -/
theorem advance_loop_bounds_witness :
    (Scheduler.initState.loopEnabled = true ∧
      Scheduler.initState.loopStart < Scheduler.initState.loopEnd) ∧
    (((Scheduler.advanceNote Scheduler.initState).currentBeat < Scheduler.initState.loopEnd ∧
      (Scheduler.initState.loopStart ≤ Scheduler.initState.currentBeat + 1 →
        Scheduler.initState.loopStart ≤
          (Scheduler.advanceNote Scheduler.initState).currentBeat)) ∧
    (∀ (a b : ℕ) (e : Bool),
      (Scheduler.setLoop a b e Scheduler.initState).currentBeat =
        Scheduler.initState.currentBeat)) :=
  ⟨⟨rfl, by decide⟩, advance_loop_bounds Scheduler.initState rfl (by decide)⟩

/-- C1 (code evaluated at the failing input): for a synth track of volume 1,
config gain 1 and a single note of velocity ½ at beat 0, the live path
(`AudioEngine.playBeat`, which folds velocity once in `playBeat` and again in
`AudioEngine.playNote`) dispatches its voice with peak gain ¼ = `g·vol·vel²`,
while the offline renderer dispatches the same note with peak gain
½ = `g·vol·vel` — so live and offline gains differ and velocity is not folded
exactly once on the live path. -/
theorem velocity_folded_twice_live :
    peakGains (AudioEngine.playBeat 120 [halfVelTrack] halfVelInstruments 0 0) = [1/4] ∧
    peakGains ((AudioRenderer.renderToWav
      { tracks := [halfVelTrack], instruments := halfVelInstruments, tempo := 120,
        loopStart := 0, loopEnd := 16 }).voices) = [1/2] := by
  constructor
  · norm_num +decide [peakGains, AudioEngine.playBeat, AudioEngine.playNote,
      AudioEngine.durationToTime, AudioEngine.playDrum, ChiptuneOscillator.playNote,
      ChiptuneOscillator.applyADSR, halfVelTrack, halfVelInstruments]
  · norm_num +decide [peakGains, AudioRenderer.renderToWav, AudioRenderer.renderDispatches,
      AudioRenderer.trackDispatches, AudioRenderer.noteDispatch,
      AudioRenderer.dispatchVoices, AudioRenderer.scheduleNote,
      AudioRenderer.applyADSR, halfVelTrack, halfVelInstruments]

/-- C6 counterexample: at duty cycle 0.1875, the cached cycles 0.125 and 0.25
are equidistant, yet both `getPulseWave` selection loops return 0.125 — the
tie is not resolved to 0.5 (nor toward it). -/
theorem pulseWave_tie_not_half :
    ChiptuneOscillator.getPulseWaveDuty (3/16) = 1/8 ∧
    AudioRenderer.getPulseWaveDuty (3/16) = 1/8 ∧
    |(3:ℚ)/16 - 1/8| = |(3:ℚ)/16 - 1/4| ∧
    ((1:ℚ)/8 ≠ 1/2) := by
  refine ⟨?_, ?_, ?_, by norm_num⟩
  · norm_num [ChiptuneOscillator.getPulseWaveDuty, List.foldl, abs_eq_max_neg, max_def]
  · norm_num [AudioRenderer.getPulseWaveDuty, List.foldl, abs_eq_max_neg, max_def]
  · norm_num [abs_eq_max_neg, max_def]

/-- Closed form of the nearest-duty selection: the scan returns 0.125 up to
0.1875 (tie included), 0.25 strictly between 0.1875 and 0.375, 0.5 from 0.375
through 0.625 (both ties included, as 0.5 is the initial best), and 0.75
above 0.625. -/
theorem pulseWave_closed_form (d : ℚ) :
    ChiptuneOscillator.getPulseWaveDuty d =
      if d ≤ 3/16 then 1/8 else if d < 3/8 then 1/4 else if d ≤ 5/8 then 1/2 else 3/4 := by
  show (List.foldl (nearestStep d) ((1:ℚ)/2, |d - 1/2|) [1/8, 1/4, 1/2, 3/4]).1 = _
  simp only [List.foldl_cons, List.foldl_nil]
  rcases le_or_lt d (3/16) with hA | hA
  · have c1 : nearestStep d ((1:ℚ)/2, |d - 1/2|) (1/8) = (1/8, |d - 1/8|) := by
      refine if_pos ?_
      show |d - 1/8| < |d - 1/2|
      rcases abs_cases (d - (1:ℚ)/8) with ⟨e1, s1⟩ | ⟨e1, s1⟩ <;>
        rcases abs_cases (d - (1:ℚ)/2) with ⟨e3, s3⟩ | ⟨e3, s3⟩ <;> rw [e1, e3] <;> linarith
    have c2 : nearestStep d ((1:ℚ)/8, |d - 1/8|) (1/4) = (1/8, |d - 1/8|) := by
      refine if_neg ?_
      show ¬(|d - 1/4| < |d - 1/8|)
      rcases abs_cases (d - (1:ℚ)/4) with ⟨e2, s2⟩ | ⟨e2, s2⟩ <;>
        rcases abs_cases (d - (1:ℚ)/8) with ⟨e1, s1⟩ | ⟨e1, s1⟩ <;> rw [e2, e1] <;>
          push_neg <;> linarith
    have c3 : nearestStep d ((1:ℚ)/8, |d - 1/8|) (1/2) = (1/8, |d - 1/8|) := by
      refine if_neg ?_
      show ¬(|d - 1/2| < |d - 1/8|)
      rcases abs_cases (d - (1:ℚ)/2) with ⟨e3, s3⟩ | ⟨e3, s3⟩ <;>
        rcases abs_cases (d - (1:ℚ)/8) with ⟨e1, s1⟩ | ⟨e1, s1⟩ <;> rw [e3, e1] <;>
          push_neg <;> linarith
    have c4 : nearestStep d ((1:ℚ)/8, |d - 1/8|) (3/4) = (1/8, |d - 1/8|) := by
      refine if_neg ?_
      show ¬(|d - 3/4| < |d - 1/8|)
      rcases abs_cases (d - (3:ℚ)/4) with ⟨e4, s4⟩ | ⟨e4, s4⟩ <;>
        rcases abs_cases (d - (1:ℚ)/8) with ⟨e1, s1⟩ | ⟨e1, s1⟩ <;> rw [e4, e1] <;>
          push_neg <;> linarith
    rw [c1, c2, c3, c4, if_pos hA]
  rcases lt_or_le d (3/8) with hB | hB
  · have c12 : nearestStep d (nearestStep d ((1:ℚ)/2, |d - 1/2|) (1/8)) (1/4)
        = (1/4, |d - 1/4|) := by
      unfold nearestStep
      split_ifs with h1 h2 h3
      · rfl
      · exfalso
        rcases abs_cases (d - (1:ℚ)/4) with ⟨e2, s2⟩ | ⟨e2, s2⟩ <;>
          rcases abs_cases (d - (1:ℚ)/8) with ⟨e1, s1⟩ | ⟨e1, s1⟩ <;>
            rw [e2, e1] at h2 <;> push_neg at h2 <;> linarith
      · rfl
      · exfalso
        rcases abs_cases (d - (1:ℚ)/4) with ⟨e2, s2⟩ | ⟨e2, s2⟩ <;>
          rcases abs_cases (d - (1:ℚ)/2) with ⟨e3, s3⟩ | ⟨e3, s3⟩ <;>
            rw [e2, e3] at h3 <;> push_neg at h3 <;> linarith
    have c3 : nearestStep d ((1:ℚ)/4, |d - 1/4|) (1/2) = (1/4, |d - 1/4|) := by
      refine if_neg ?_
      show ¬(|d - 1/2| < |d - 1/4|)
      rcases abs_cases (d - (1:ℚ)/2) with ⟨e3, s3⟩ | ⟨e3, s3⟩ <;>
        rcases abs_cases (d - (1:ℚ)/4) with ⟨e2, s2⟩ | ⟨e2, s2⟩ <;> rw [e3, e2] <;>
          push_neg <;> linarith
    have c4 : nearestStep d ((1:ℚ)/4, |d - 1/4|) (3/4) = (1/4, |d - 1/4|) := by
      refine if_neg ?_
      show ¬(|d - 3/4| < |d - 1/4|)
      rcases abs_cases (d - (3:ℚ)/4) with ⟨e4, s4⟩ | ⟨e4, s4⟩ <;>
        rcases abs_cases (d - (1:ℚ)/4) with ⟨e2, s2⟩ | ⟨e2, s2⟩ <;> rw [e4, e2] <;>
          push_neg <;> linarith
    rw [c12, c3, c4, if_neg (by linarith), if_pos hB]
  rcases le_or_lt d (5/8) with hC | hC
  · have c1 : nearestStep d ((1:ℚ)/2, |d - 1/2|) (1/8) = ((1:ℚ)/2, |d - 1/2|) := by
      refine if_neg ?_
      show ¬(|d - 1/8| < |d - 1/2|)
      rcases abs_cases (d - (1:ℚ)/8) with ⟨e1, s1⟩ | ⟨e1, s1⟩ <;>
        rcases abs_cases (d - (1:ℚ)/2) with ⟨e3, s3⟩ | ⟨e3, s3⟩ <;> rw [e1, e3] <;>
          push_neg <;> linarith
    have c2 : nearestStep d ((1:ℚ)/2, |d - 1/2|) (1/4) = ((1:ℚ)/2, |d - 1/2|) := by
      refine if_neg ?_
      show ¬(|d - 1/4| < |d - 1/2|)
      rcases abs_cases (d - (1:ℚ)/4) with ⟨e2, s2⟩ | ⟨e2, s2⟩ <;>
        rcases abs_cases (d - (1:ℚ)/2) with ⟨e3, s3⟩ | ⟨e3, s3⟩ <;> rw [e2, e3] <;>
          push_neg <;> linarith
    have c3 : nearestStep d ((1:ℚ)/2, |d - 1/2|) (1/2) = ((1:ℚ)/2, |d - 1/2|) := by
      refine if_neg ?_
      show ¬(|d - 1/2| < |d - 1/2|)
      exact lt_irrefl _
    have c4 : nearestStep d ((1:ℚ)/2, |d - 1/2|) (3/4) = ((1:ℚ)/2, |d - 1/2|) := by
      refine if_neg ?_
      show ¬(|d - 3/4| < |d - 1/2|)
      rcases abs_cases (d - (3:ℚ)/4) with ⟨e4, s4⟩ | ⟨e4, s4⟩ <;>
        rcases abs_cases (d - (1:ℚ)/2) with ⟨e3, s3⟩ | ⟨e3, s3⟩ <;> rw [e4, e3] <;>
          push_neg <;> linarith
    rw [c1, c2, c3, c4, if_neg (by linarith), if_neg (by linarith), if_pos hC]
  · have c1 : nearestStep d ((1:ℚ)/2, |d - 1/2|) (1/8) = ((1:ℚ)/2, |d - 1/2|) := by
      refine if_neg ?_
      show ¬(|d - 1/8| < |d - 1/2|)
      rcases abs_cases (d - (1:ℚ)/8) with ⟨e1, s1⟩ | ⟨e1, s1⟩ <;>
        rcases abs_cases (d - (1:ℚ)/2) with ⟨e3, s3⟩ | ⟨e3, s3⟩ <;> rw [e1, e3] <;>
          push_neg <;> linarith
    have c2 : nearestStep d ((1:ℚ)/2, |d - 1/2|) (1/4) = ((1:ℚ)/2, |d - 1/2|) := by
      refine if_neg ?_
      show ¬(|d - 1/4| < |d - 1/2|)
      rcases abs_cases (d - (1:ℚ)/4) with ⟨e2, s2⟩ | ⟨e2, s2⟩ <;>
        rcases abs_cases (d - (1:ℚ)/2) with ⟨e3, s3⟩ | ⟨e3, s3⟩ <;> rw [e2, e3] <;>
          push_neg <;> linarith
    have c3 : nearestStep d ((1:ℚ)/2, |d - 1/2|) (1/2) = ((1:ℚ)/2, |d - 1/2|) :=
      if_neg (lt_irrefl _)
    have c4 : nearestStep d ((1:ℚ)/2, |d - 1/2|) (3/4) = ((3:ℚ)/4, |d - 3/4|) := by
      refine if_pos ?_
      show |d - 3/4| < |d - 1/2|
      rcases abs_cases (d - (3:ℚ)/4) with ⟨e4, s4⟩ | ⟨e4, s4⟩ <;>
        rcases abs_cases (d - (1:ℚ)/2) with ⟨e3, s3⟩ | ⟨e3, s3⟩ <;> rw [e4, e3] <;> linarith
    rw [c1, c2, c3, c4, if_neg (by linarith), if_neg (by linarith), if_neg (by linarith)]

/-- Sufficient linear conditions for comparing two absolute values. -/
theorem abs_le_abs_of_cases {a b : ℚ} (h1 : a ≤ b ∨ a ≤ -b) (h2 : -a ≤ b ∨ -a ≤ -b) :
    |a| ≤ |b| := by
  rcases abs_cases a with ⟨e, s⟩ | ⟨e, s⟩ <;> rcases abs_cases b with ⟨f, t⟩ | ⟨f, t⟩ <;>
    rw [e, f] <;> rcases h1 with h1 | h1 <;> rcases h2 with h2 | h2 <;> linarith

/-- C6 amended: for every duty cycle `d ∈ [0,1]`, both selection loops return
a cached duty cycle minimizing `|d − cached|`, and whenever 0.5 is among the
minimizers the result is 0.5 (0.5 wins every tie it takes part in, being the
initial candidate of the scan); the remaining tie — 0.125 versus 0.25 at
`d = 0.1875` — resolves to 0.125, the earlier entry of the scan order, not
to 0.5. -/
theorem pulseWave_nearest_amended (d : ℚ) (h0 : 0 ≤ d) (h1 : d ≤ 1) :
    ChiptuneOscillator.getPulseWaveDuty d ∈ ([1/8, 1/4, 1/2, 3/4] : List ℚ) ∧
    (∀ c ∈ ([1/8, 1/4, 1/2, 3/4] : List ℚ),
      |d - ChiptuneOscillator.getPulseWaveDuty d| ≤ |d - c|) ∧
    ((∀ c ∈ ([1/8, 1/4, 1/2, 3/4] : List ℚ), |d - 1/2| ≤ |d - c|) →
      ChiptuneOscillator.getPulseWaveDuty d = 1/2) ∧
    AudioRenderer.getPulseWaveDuty d = ChiptuneOscillator.getPulseWaveDuty d := by
  have hcf := pulseWave_closed_form d
  refine ⟨?_, ?_, ?_, rfl⟩
  · rw [hcf]; split_ifs <;> simp
  · intro c hc
    simp only [List.mem_cons, List.not_mem_nil, or_false] at hc
    rw [hcf]
    split_ifs with hA hB hC <;> rcases hc with rfl | rfl | rfl | rfl <;>
      refine abs_le_abs_of_cases ?_ ?_ <;>
      first
        | exact Or.inl (by linarith)
        | exact Or.inr (by linarith)
  · intro hmin
    have h14 := hmin (1/4) (by norm_num)
    have h34 := hmin (3/4) (by norm_num)
    have hge : 3/8 ≤ d := by
      rcases abs_cases (d - (1:ℚ)/2) with ⟨e3, s3⟩ | ⟨e3, s3⟩ <;>
        rcases abs_cases (d - (1:ℚ)/4) with ⟨e2, s2⟩ | ⟨e2, s2⟩ <;>
          rw [e3, e2] at h14 <;> linarith
    have hle : d ≤ 5/8 := by
      rcases abs_cases (d - (1:ℚ)/2) with ⟨e3, s3⟩ | ⟨e3, s3⟩ <;>
        rcases abs_cases (d - (3:ℚ)/4) with ⟨e4, s4⟩ | ⟨e4, s4⟩ <;>
          rw [e3, e4] at h34 <;> linarith
    rw [hcf, if_neg (by linarith), if_neg (by linarith), if_pos hle]

/-- Witness for the amended C6 at duty cycle 1/3. -/
theorem pulseWave_nearest_amended_witness :
    ((0:ℚ) ≤ 1/3 ∧ (1:ℚ)/3 ≤ 1) ∧
    (ChiptuneOscillator.getPulseWaveDuty (1/3) ∈ ([1/8, 1/4, 1/2, 3/4] : List ℚ) ∧
    (∀ c ∈ ([1/8, 1/4, 1/2, 3/4] : List ℚ),
      |(1:ℚ)/3 - ChiptuneOscillator.getPulseWaveDuty (1/3)| ≤ |(1:ℚ)/3 - c|) ∧
    ((∀ c ∈ ([1/8, 1/4, 1/2, 3/4] : List ℚ), |(1:ℚ)/3 - 1/2| ≤ |(1:ℚ)/3 - c|) →
      ChiptuneOscillator.getPulseWaveDuty (1/3) = 1/2) ∧
    AudioRenderer.getPulseWaveDuty (1/3) = ChiptuneOscillator.getPulseWaveDuty (1/3)) :=
  ⟨⟨by norm_num, by norm_num⟩, pulseWave_nearest_amended (1/3) (by norm_num) (by norm_num)⟩

/-- The time of a note dispatch is `(startBeat − loopStart) · secondsPer16th`
for drum and synth dispatches alike. -/
theorem noteDispatch_time (sp : ℚ) (ls : ℕ) (t : Track) (cfg : InstrumentConfig) (n : Note) :
    (AudioRenderer.noteDispatch sp ls t cfg n).time = ((n.startBeat : ℚ) - (ls : ℚ)) * sp := by
  unfold AudioRenderer.noteDispatch
  split <;> rfl

/-- C4: with every track's instrument config registered, the offline render
pass dispatches exactly the notes with `loopStart ≤ startBeat < loopEnd` on
tracks that are not muted (and, when any track is soloed, only on soloed
tracks — a muted soloed track is still skipped), each at time
`(startBeat − loopStart) · secondsPer16th` with `secondsPer16th = 60/tempo/4`;
notes outside the loop region produce no dispatch and no error, and the
rendered duration is `(loopEnd − loopStart) · secondsPer16th + 1` seconds. -/
theorem renderToWav_schedules_exactly (opts : AudioRenderer.RenderOptions)
    (hconf : ∀ t ∈ opts.tracks, (opts.instruments t.id).isSome = true) :
    (∀ t ∈ opts.tracks, ∀ n ∈ t.notes, ∀ config : InstrumentConfig,
      opts.instruments t.id = some config →
      t.muted = false →
      (opts.tracks.any (·.solo) = true → t.solo = true) →
      opts.loopStart ≤ n.startBeat → n.startBeat < opts.loopEnd →
      AudioRenderer.noteDispatch (60 / opts.tempo / 4) opts.loopStart t config n ∈
        (AudioRenderer.renderToWav opts).dispatches) ∧
    (∀ dsp ∈ (AudioRenderer.renderToWav opts).dispatches,
      ∃ t ∈ opts.tracks, ∃ n ∈ t.notes, ∃ config : InstrumentConfig,
        opts.instruments t.id = some config ∧
        t.muted = false ∧
        (opts.tracks.any (·.solo) = true → t.solo = true) ∧
        opts.loopStart ≤ n.startBeat ∧ n.startBeat < opts.loopEnd ∧
        dsp = AudioRenderer.noteDispatch (60 / opts.tempo / 4) opts.loopStart t config n ∧
        dsp.time = ((n.startBeat : ℚ) - (opts.loopStart : ℚ)) * (60 / opts.tempo / 4)) ∧
    (AudioRenderer.renderToWav opts).durationSeconds =
      ((opts.loopEnd : ℚ) - (opts.loopStart : ℚ)) * (60 / opts.tempo / 4) + 1 := by
  refine ⟨?_, ?_, rfl⟩
  · intro t ht n hn config hcfg hm hs hl hr
    show _ ∈ AudioRenderer.renderDispatches opts
    unfold AudioRenderer.renderDispatches
    refine List.mem_flatMap.mpr ⟨t, ht, ?_⟩
    unfold AudioRenderer.trackDispatches
    have hsolo : (opts.tracks.any (·.solo) && !t.solo) = false := by
      cases hcase : opts.tracks.any (·.solo) with
      | false => rfl
      | true => rw [hs hcase]; rfl
    rw [if_neg (by rw [hm]; exact Bool.false_ne_true),
      if_neg (by rw [hsolo]; exact Bool.false_ne_true), hcfg]
    exact List.mem_map.mpr ⟨n, List.mem_filter.mpr ⟨hn, by simp [hl, hr]⟩, rfl⟩
  · intro dsp hdsp
    replace hdsp : dsp ∈ AudioRenderer.renderDispatches opts := hdsp
    unfold AudioRenderer.renderDispatches at hdsp
    rcases List.mem_flatMap.mp hdsp with ⟨t, ht, hmem⟩
    unfold AudioRenderer.trackDispatches at hmem
    by_cases hm : t.muted = true
    · rw [if_pos hm] at hmem; exact absurd hmem (List.not_mem_nil _)
    rw [if_neg hm] at hmem
    by_cases hsolo : (opts.tracks.any (·.solo) && !t.solo) = true
    · rw [if_pos hsolo] at hmem; exact absurd hmem (List.not_mem_nil _)
    rw [if_neg hsolo] at hmem
    rcases hcase : opts.instruments t.id with _ | config
    · rw [hcase] at hmem; exact absurd hmem (List.not_mem_nil _)
    rw [hcase] at hmem
    rcases List.mem_map.mp hmem with ⟨n, hnf, rfl⟩
    rcases List.mem_filter.mp hnf with ⟨hn, hcond⟩
    simp only [Bool.and_eq_true, decide_eq_true_eq] at hcond
    refine ⟨t, ht, n, hn, config, hcase, Bool.not_eq_true _ ▸ hm, ?_, hcond.1, hcond.2,
      rfl, noteDispatch_time _ _ _ _ _⟩
    intro hany
    by_contra hts
    rw [Bool.not_eq_true] at hts
    apply hsolo
    rw [hany, hts]
    rfl

/-- Witness for C4: a one-drum-track snapshot in which every track has a
config; the theorem then yields in particular the rendered duration formula. -/
theorem renderToWav_schedules_exactly_witness :
    (∀ t ∈ (AudioRenderer.RenderOptions.mk
        [{ id := "a", type := .drums, notes := [⟨38, 2, 1, 1⟩],
           muted := false, solo := false, volume := 1 }]
        (fun _ => some DEFAULT_INSTRUMENT) 120 0 16).tracks,
      ((fun _ => some DEFAULT_INSTRUMENT :
          String → Option InstrumentConfig) t.id).isSome = true) ∧
    (AudioRenderer.renderToWav (AudioRenderer.RenderOptions.mk
        [{ id := "a", type := .drums, notes := [⟨38, 2, 1, 1⟩],
           muted := false, solo := false, volume := 1 }]
        (fun _ => some DEFAULT_INSTRUMENT) 120 0 16)).durationSeconds =
      ((16 : ℚ) - (0 : ℚ)) * (60 / 120 / 4) + 1 :=
  ⟨fun t _ => rfl,
    (renderToWav_schedules_exactly
      (AudioRenderer.RenderOptions.mk
        [{ id := "a", type := .drums, notes := [⟨38, 2, 1, 1⟩],
           muted := false, solo := false, volume := 1 }]
        (fun _ => some DEFAULT_INSTRUMENT) 120 0 16)
      (fun t _ => rfl)).2.2⟩

/-- Every sample is clamped to [-1, 1]. -/
theorem clampSample_bounds (s : ℚ) :
    -1 ≤ AudioRenderer.clampSample s ∧ AudioRenderer.clampSample s ≤ 1 := by
  unfold AudioRenderer.clampSample
  constructor
  · exact le_max_left _ _
  · exact max_le (by norm_num) (min_le_left _ _)

/-- The truncated scaled sample always fits in a signed 16-bit integer. -/
theorem truncScale_bounds (s : ℚ) :
    -32768 ≤ AudioRenderer.truncQ (AudioRenderer.scaleSample s) ∧
      AudioRenderer.truncQ (AudioRenderer.scaleSample s) ≤ 32767 := by
  obtain ⟨hlo, hhi⟩ := clampSample_bounds s
  unfold AudioRenderer.scaleSample AudioRenderer.truncQ
  split_ifs with h1 h2 h2
  · constructor
    · have : ((-32768 : ℤ) : ℚ) ≤ AudioRenderer.clampSample s * 32768 := by
        push_cast; linarith
      calc (-32768 : ℤ) = ⌈((-32768 : ℤ) : ℚ)⌉ := (Int.ceil_intCast _).symm
        _ ≤ ⌈AudioRenderer.clampSample s * 32768⌉ := Int.ceil_le_ceil this
    · have : AudioRenderer.clampSample s * 32768 ≤ ((32767 : ℤ) : ℚ) := by
        push_cast; linarith
      calc ⌈AudioRenderer.clampSample s * 32768⌉ ≤ ⌈((32767 : ℤ) : ℚ)⌉ := Int.ceil_le_ceil this
        _ = 32767 := Int.ceil_intCast _
  · exfalso
    have : AudioRenderer.clampSample s * 32768 < 0 := by linarith
    exact h2 this
  · exfalso
    have h0 : 0 ≤ AudioRenderer.clampSample s := not_lt.mp h1
    have : 0 ≤ AudioRenderer.clampSample s * 32767 := by linarith
    linarith
  · have h0 : 0 ≤ AudioRenderer.clampSample s := not_lt.mp h1
    constructor
    · have : ((-32768 : ℤ) : ℚ) ≤ AudioRenderer.clampSample s * 32767 := by
        push_cast; linarith
      calc (-32768 : ℤ) = ⌊((-32768 : ℤ) : ℚ)⌋ := (Int.floor_intCast _).symm
        _ ≤ ⌊AudioRenderer.clampSample s * 32767⌋ := Int.floor_le_floor this
    · have : AudioRenderer.clampSample s * 32767 ≤ ((32767 : ℤ) : ℚ) := by
        push_cast; linarith
      calc ⌊AudioRenderer.clampSample s * 32767⌋ ≤ ⌊((32767 : ℤ) : ℚ)⌋ := Int.floor_le_floor this
        _ = 32767 := Int.floor_intCast _

/-- Decoding the little-endian int16 stream recovers each truncated scaled
sample (two's-complement round trip). -/
theorem decodeInt16s_encode (l : List ℚ) :
    AudioRenderer.decodeInt16s (l.flatMap fun s =>
      AudioRenderer.int16Bytes (AudioRenderer.scaleSample s)) =
      l.map fun s => AudioRenderer.truncQ (AudioRenderer.scaleSample s) := by
  induction l with
  | nil => rfl
  | cons s l ih =>
      rw [List.flatMap_cons, List.map_cons]
      show AudioRenderer.decodeInt16s
        ((AudioRenderer.truncQ (AudioRenderer.scaleSample s) % 65536).toNat % 256 ::
         (AudioRenderer.truncQ (AudioRenderer.scaleSample s) % 65536).toNat / 256 % 256 ::
         (l.flatMap fun s => AudioRenderer.int16Bytes (AudioRenderer.scaleSample s))) = _
      rw [AudioRenderer.decodeInt16s, ih]
      obtain ⟨hlo, hhi⟩ := truncScale_bounds s
      congr 1
      split_ifs with h <;> omega

/-- The interleaved sample stream has one sample per frame and channel. -/
theorem interleavedSamples_length (b : AudioBuffer) :
    (AudioRenderer.interleavedSamples b).length = b.length * b.numberOfChannels := by
  unfold AudioRenderer.interleavedSamples
  rw [List.length_flatMap]
  simp only [Function.comp_def]
  have : ((List.range b.length).map fun i =>
      ((List.range b.numberOfChannels).map fun ch => b.channelData ch i).length) =
      (List.range b.length).map fun _ => b.numberOfChannels := by
    simp
  rw [this]
  simp [List.map_const', mul_comm]

/-- The encoded PCM data section holds `2 · channels · frames` bytes. -/
theorem encoded_data_length (b : AudioBuffer) :
    ((AudioRenderer.interleavedSamples b).flatMap fun s =>
      AudioRenderer.int16Bytes (AudioRenderer.scaleSample s)).length =
      2 * b.numberOfChannels * b.length := by
  rw [List.length_flatMap]
  simp only [Function.comp_def]
  have : ((AudioRenderer.interleavedSamples b).map fun s =>
      (AudioRenderer.int16Bytes (AudioRenderer.scaleSample s)).length) =
      (AudioRenderer.interleavedSamples b).map fun _ => 2 := by
    simp [AudioRenderer.int16Bytes, AudioRenderer.u16le]
  rw [this]
  simp [List.map_const', interleavedSamples_length]
  ring

/-- The fixed WAV header is 44 bytes long. -/
theorem wavHeader_length (b : AudioBuffer) :
    (AudioRenderer.wavHeader b).length = 44 := by
  simp [AudioRenderer.wavHeader, AudioRenderer.u16le, AudioRenderer.u32le]

set_option maxHeartbeats 2000000 in
/-- C5: parsing the byte stream `bufferToWav` emits recovers the exact
44-byte little-endian RIFF/WAVE/fmt/data layout: format 1 (PCM), 16 bits per
sample, channel count and sample rate taken from the rendered buffer, a data
chunk of `2 · channels · sampleCount` bytes whose int16 samples are exactly
the clamped samples scaled by 0x8000 when negative and 0x7FFF otherwise
(then truncated to an integer, as `DataView.setInt16` does), and a total file
length of `44 + 2 · channels · sampleCount` bytes. -/
theorem bufferToWav_layout (b : AudioBuffer)
    (hch : b.numberOfChannels < 256)
    (hsr : b.sampleRate < 4294967296)
    (hbr : b.sampleRate * (b.numberOfChannels * 2) < 4294967296)
    (hdl : 44 + b.length * (b.numberOfChannels * 2) < 4294967296) :
    AudioRenderer.parseWav (AudioRenderer.bufferToWav b) =
      some { riffChunkSize := 36 + 2 * b.numberOfChannels * b.length,
             fmtChunkSize := 16,
             format := 1,
             numChannels := b.numberOfChannels,
             sampleRate := b.sampleRate,
             byteRate := b.sampleRate * (b.numberOfChannels * 2),
             blockAlign := b.numberOfChannels * 2,
             bitsPerSample := 16,
             dataLength := 2 * b.numberOfChannels * b.length,
             samples := (AudioRenderer.interleavedSamples b).map
               (fun s => AudioRenderer.truncQ (AudioRenderer.scaleSample s)) } ∧
    (AudioRenderer.bufferToWav b).length = 44 + 2 * b.numberOfChannels * b.length := by
  have hmul : 2 * b.numberOfChannels * b.length = b.length * (b.numberOfChannels * 2) := by
    ring
  constructor
  · simp only [AudioRenderer.bufferToWav, AudioRenderer.wavHeader,
      AudioRenderer.u16le, AudioRenderer.u32le, List.cons_append, List.nil_append,
      AudioRenderer.parseWav, Option.some.injEq, AudioRenderer.WavFile.mk.injEq]
    refine ⟨?_, trivial, trivial, by omega, by omega, ?_, by omega, trivial, ?_,
      decodeInt16s_encode _⟩
    · rw [hmul]
      generalize b.length * (b.numberOfChannels * 2) = n at hdl ⊢
      omega
    · generalize b.sampleRate * (b.numberOfChannels * 2) = n at hbr ⊢
      omega
    · rw [hmul]
      generalize b.length * (b.numberOfChannels * 2) = n at hdl ⊢
      omega
  · show (AudioRenderer.wavHeader b ++ _).length = _
    rw [List.length_append, wavHeader_length, encoded_data_length]

/-- Witness for C5 on a concrete one-channel, two-frame buffer at 8000 Hz;
the theorem then yields in particular the total byte length `44 + 2·1·2`. -/
theorem bufferToWav_layout_witness :
    ((AudioBuffer.mk 1 8000 2 fun _ i => if i = 0 then 1/2 else -2).numberOfChannels < 256 ∧
     (AudioBuffer.mk 1 8000 2 fun _ i => if i = 0 then 1/2 else -2).sampleRate < 4294967296 ∧
     (AudioBuffer.mk 1 8000 2 fun _ i => if i = 0 then 1/2 else -2).sampleRate *
       ((AudioBuffer.mk 1 8000 2 fun _ i => if i = 0 then 1/2 else -2).numberOfChannels * 2) <
         4294967296 ∧
     44 + (AudioBuffer.mk 1 8000 2 fun _ i => if i = 0 then 1/2 else -2).length *
       ((AudioBuffer.mk 1 8000 2 fun _ i => if i = 0 then 1/2 else -2).numberOfChannels * 2) <
         4294967296) ∧
    (AudioRenderer.bufferToWav
      (AudioBuffer.mk 1 8000 2 fun _ i => if i = 0 then 1/2 else -2)).length =
      44 + 2 * 1 * 2 :=
  ⟨⟨by norm_num, by norm_num, by norm_num, by norm_num⟩,
    (bufferToWav_layout (AudioBuffer.mk 1 8000 2 fun _ i => if i = 0 then 1/2 else -2)
      (by norm_num) (by norm_num) (by norm_num) (by norm_num)).2⟩

end PixelMusic

